import Mathlib

/-!
Verification of the PyBuilder plugin-resolution chain and graph assembler,
a shallow embedding of `src/main/python/pybuilder/pluginloader.py` and
`src/main/python/pybuilder/reactor.py`.

Modelling conventions:
* Python strings are Lean `String`; `str.startswith` and `str.replace` are
  re-implemented structurally (`strStarts`, `pyReplace`) so that they
  compute in the kernel.
* The module-import collaborator (`__import__` / `sys.modules`) is a
  function `String → Option PluginModule` (`none` models `ImportError`).
* The process-invocation collaborator (`execute_command` running
  `pip install`) is a function `String → Nat × String` returning the exit
  code and the captured log-file text.
* Exceptions are modelled with `Except` / explicit error values; a Python
  function that may raise returns `Except PybError α`.
* Logging calls (`self.logger...`) have no observable effect on the
  values the claims are about and are dropped.
-/

/-- Python `pattern.isPrefixOf`-style check on character lists:
`listStarts pat l` is true when `pat` is a prefix of `l`. -/
def listStarts : List Char → List Char → Bool
  | [], _ => true
  | _ :: _, [] => false
  | p :: ps, c :: cs => decide (p = c) && listStarts ps cs

/-- Python `s.startswith(pat)`. -/
def strStarts (s pat : String) : Bool :=
  listStarts pat.toList s.toList

/-- Fuel-driven core of Python `str.replace`: scans left to right and
replaces non-overlapping occurrences of `old` by `new`.  The fuel is the
length of the scanned list, which suffices because every step consumes at
least one character. -/
def replaceFuel (old new : List Char) : Nat → List Char → List Char
  | _, [] => []
  | 0, s => s
  | Nat.succ n, c :: cs =>
    if listStarts old (c :: cs) then
      new ++ replaceFuel old new n (List.drop (old.length - 1) cs)
    else
      c :: replaceFuel old new n cs

/-- Python `s.replace(old, new)` (replaces ALL occurrences, not only a
leading one).  Both call sites in the source use a nonempty `old`. -/
def pyReplace (s old new : String) : String :=
  if old.toList.isEmpty then s
  else String.mk (replaceFuel old.toList new.toList s.toList.length s.toList)

/-- Python truthiness of an optional string argument: `None` and the empty
string are falsy. -/
def truthy : Option String → Option String
  | none => none
  | some s => if s = "" then none else some s

/-- Python `x or d` for an optional string `x` and default `d`. -/
def pyOr (x : Option String) (d : String) : String :=
  match truthy x with
  | some s => s
  | none => d

/-- The constant `PYPI_PLUGIN_PROTOCOL` from pluginloader.py. -/
def PYPI_PLUGIN_PROTOCOL : String := "pypi:"

/-- The constant `VCS_PLUGIN_PROTOCOL` from pluginloader.py. -/
def VCS_PLUGIN_PROTOCOL : String := "vcs:"

/-- Comparison operator of one version specifier clause, e.g. the `>=` of
`">=2.0"`. -/
inductive SpecOp where
  | lt
  | le
  | eqOp
  | neOp
  | ge
  | gt
deriving Repr, DecidableEq

/-- One clause of a version-range requirement: an operator and a version
given by its numeric release segments (`[2, 0]` for `2.0`). -/
structure Specifier where
  op : SpecOp
  version : List Nat
deriving Repr, DecidableEq

/-- Whether every remaining release segment is zero (used to pad the
shorter version with zeros when comparing). -/
def allZeros : List Nat → Bool
  | [] => true
  | n :: ns => decide (n = 0) && allZeros ns

/-- Compare two versions segment-wise, padding the shorter one with zeros
(so `1.9.0` and `1.9` are equal and `1.9.0 < 2.0`). -/
def versionCompare : List Nat → List Nat → Ordering
  | [], bs => if allZeros bs then Ordering.eq else Ordering.lt
  | a :: as, [] => if allZeros (a :: as) then Ordering.eq else Ordering.gt
  | a :: as, b :: bs =>
    if a < b then Ordering.lt
    else if b < a then Ordering.gt
    else versionCompare as bs

/-- Whether a version satisfies one specifier clause. -/
def specMatches (s : Specifier) (v : List Nat) : Bool :=
  match s.op, versionCompare v s.version with
  | SpecOp.lt, Ordering.lt => true
  | SpecOp.lt, _ => false
  | SpecOp.le, Ordering.gt => false
  | SpecOp.le, _ => true
  | SpecOp.eqOp, Ordering.eq => true
  | SpecOp.eqOp, _ => false
  | SpecOp.neOp, Ordering.eq => false
  | SpecOp.neOp, _ => true
  | SpecOp.ge, Ordering.lt => false
  | SpecOp.ge, _ => true
  | SpecOp.gt, Ordering.gt => true
  | SpecOp.gt, _ => false

/-- Modelled from the spec: `SpecifierSet.contains` of the external
version-range collaborator (pip packaging, not part of this repository) —
"standard semantic-version range semantics (inclusive/exclusive bounds)":
a version is contained when it satisfies every clause of the set. -/
def specSetContains (ss : List Specifier) (v : List Nat) : Bool :=
  ss.all (fun s => specMatches s v)

/-- The typed errors raised by the plugin loader chain
(`pybuilder.errors`): `MissingPluginException`,
`IncompatiblePluginException`, `UnspecifiedPluginNameException`, plus a
catch-all for foreign exceptions propagated through the reactor. -/
inductive PybError where
  | missingPlugin (pluginName : String) (message : String)
  | incompatiblePlugin (pluginName : String) (required : List Specifier) (actual : List Nat)
  | unspecifiedPluginName (pluginName : String)
  | otherError (tag : String)
deriving Repr, DecidableEq

/-- Whether an error is a `MissingPluginException` (the only class caught
by `DispatchingPluginLoader` and `DownloadingPluginLoader`). -/
def isMissingErr : PybError → Bool
  | PybError.missingPlugin _ _ => true
  | _ => false

/-!
Graph assembler data model (`Reactor.collect_tasks_and_actions_and_initializers`).

A Python module is reflected as the ordered list of its top-level
candidates (`dir(project_module)` yields a fixed order; both passes
iterate it identically).  A candidate is a record of the role-marker
attributes probed by the source; an absent attribute is modelled by the
neutral value the source substitutes for it (`Option.none`, `false`, `[]`
or `""`).
-/

/-- A dependency target as it appears in a `depends`/`dependents`
attribute: either a task name (a Python string) or a direct reference to
another candidate object, of which only the two name attributes that
`normalize_candidate_name` probes are relevant. -/
inductive TargetRef where
  | str (s : String)
  | obj (nameAttr : Option String) (dunderName : Option String)
deriving Repr, DecidableEq

/-- Modelled from the spec: the external execution engine's
`TaskDependency` (pybuilder.execution, not part of this repository) — "a
reference to another task (by name or by direct reference, normalized to
name at registration time) plus an `optional` flag". -/
structure TaskDependency where
  name : Option String
  optional : Bool
deriving Repr, DecidableEq

/-- Resolve a target to a task name the way
`Reactor.normalize_candidate_name` does for non-string targets: the
explicit name attribute when present, else the intrinsic `__name__`
(Python returns `None` when both are absent). -/
def normalizeTargetKey : TargetRef → Option String
  | TargetRef.str s => some s
  | TargetRef.obj a b =>
    match a with
    | some n => some n
    | none => b

/-- Construct a `TaskDependency` from a raw target. -/
def mkTaskDependency (t : TargetRef) (opt : Bool) : TaskDependency :=
  TaskDependency.mk (normalizeTargetKey t) opt

/-- One element of a `DEPENDS_ATTRIBUTE` list: a plain target, or an
`optional(...)` wrapper whose evaluation (`d()` followed by `as_list`)
yields the listed targets. -/
inductive DependsEntry where
  | plainD (t : TargetRef)
  | optionalD (ts : List TargetRef)
deriving Repr, DecidableEq

/-- One element of a `DEPENDENTS_ATTRIBUTE` list.  Both variants carry the
`as_list`-flattened targets, because `add_task_dependency` applies
`as_list` to plain dependents as well. -/
inductive DependentsEntry where
  | plainT (ts : List TargetRef)
  | optionalT (ts : List TargetRef)
deriving Repr, DecidableEq

/-- A top-level candidate of a scanned module, restricted to the
attributes the two passes probe. -/
structure Candidate where
  dunderName : Option String
  nameAttr : Option String
  task : Bool
  depends : List DependsEntry
  dependents : List DependentsEntry
  action : Bool
  before : Option (List String)
  after : Option (List String)
  only_once : Bool
  teardown : Bool
  initializer : Bool
  environments : List String
  description : String
deriving Repr, DecidableEq

/-- `Reactor.normalize_candidate_name` applied to a candidate. -/
def normalize_candidate_name (c : Candidate) : Option String :=
  match c.nameAttr with
  | some n => some n
  | none => c.dunderName

/-- A registration call on the external execution engine
(`register_task` / `register_action` / `register_initializer`). -/
inductive RegEvent where
  | task (name : Option String) (dependencies : List TaskDependency) (description : String)
  | action (name : Option String) (before : Option (List String)) (after : Option (List String))
      (description : String) (only_once : Bool) (teardown : Bool)
  | initializerReg (name : Option String) (environments : List String) (description : String)
deriving Repr, DecidableEq

/-- The Pass-1 accumulator `injected_task_dependencies`, a dict from
normalized task name to the list of task dependencies appended for it, in
insertion order.  It is modelled as its lookup function with `[]` for an
absent key — the source only ever reads it through `name in dict` plus
`dict[name]`, and `extend` of the empty list is a no-op. -/
def InjMap : Type := Option String → List TaskDependency

/-- Append one dependency under one key
(`injected_task_dependencies[name].append(...)` with the fresh-list
initialisation for a new key). -/
def addInjected (m : InjMap) (key : Option String) (td : TaskDependency) : InjMap :=
  fun k => if k = key then m k ++ [td] else m k

/-- The local helper `add_task_dependency(names, depends_on, optional)`:
record, for every listed target name, a dependency on `depends_on`. -/
def add_task_dependency (m : InjMap) (names : List TargetRef) (depends_on : TargetRef)
    (opt : Bool) : InjMap :=
  List.foldl (fun m t => addInjected m (normalizeTargetKey t) (mkTaskDependency depends_on opt)) m names

/-- Pass-1 treatment of one element of a task's `dependents` list:
optional wrappers are evaluated and recorded as optional dependencies,
plain targets as non-optional ones, each pointing at the current
candidate. -/
def pass1Entry (c : Candidate) (m : InjMap) (d : DependentsEntry) : InjMap :=
  match d with
  | DependentsEntry.optionalT ts =>
    add_task_dependency m ts (TargetRef.obj c.nameAttr c.dunderName) true
  | DependentsEntry.plainT ts =>
    add_task_dependency m ts (TargetRef.obj c.nameAttr c.dunderName) false

/-- Pass 1 for one candidate: only task-marked candidates contribute, via
their (possibly absent, hence empty) `dependents` list. -/
def pass1Candidate (m : InjMap) (c : Candidate) : InjMap :=
  if c.task then List.foldl (pass1Entry c) m c.dependents else m

/-- The whole Pass 1 over a module. -/
def buildInjected (module : List Candidate) : InjMap :=
  List.foldl pass1Candidate (fun _ => []) module

/-- Expansion of one `depends` element in Pass 2: an optional wrapper
yields one optional dependency per listed target, a plain target one
non-optional dependency. -/
def dependsEntryDeps : DependsEntry → List TaskDependency
  | DependsEntry.optionalD ts => ts.map (fun t => mkTaskDependency t true)
  | DependsEntry.plainD t => [mkTaskDependency t false]

/-- The declared forward dependencies of a task candidate, accumulated in
declared order exactly as the source's `task_dependencies` list before
the injected dependencies are appended. -/
def declaredDeps (c : Candidate) : List TaskDependency :=
  List.foldl (fun acc d => acc ++ dependsEntryDeps d) [] c.depends

/-- Pass 2 for one candidate: classify (task, then action, then
initializer; first match wins) and produce the registration call, or none
for an unmarked candidate. -/
def pass2Candidate (m : InjMap) (c : Candidate) : Option RegEvent :=
  if c.task then
    some (RegEvent.task (normalize_candidate_name c)
      (declaredDeps c ++ m (normalize_candidate_name c)) c.description)
  else if c.action then
    some (RegEvent.action (normalize_candidate_name c) c.before c.after c.description
      c.only_once c.teardown)
  else if c.initializer then
    some (RegEvent.initializerReg (normalize_candidate_name c) c.environments c.description)
  else none

/-- `Reactor.collect_tasks_and_actions_and_initializers`: Pass 1 builds
the injected-dependency map, Pass 2 emits the registration calls in
module order. -/
def collect_tasks_and_actions_and_initializers (module : List Candidate) : List RegEvent :=
  List.filterMap (pass2Candidate (buildInjected module)) module

/-!
Plugin loader chain (pluginloader.py).
-/

/-- An importable Python module as the loaders see it: its optional
`pyb_version` compatibility-requirement attribute (kept in the parsed form
the external `SpecifierSet` collaborator produces from the attribute
string; `none` covers both an absent and a falsy attribute) and, for the
graph assembler, its top-level candidates. -/
structure PluginModule where
  moduleName : String
  pyb_version : Option (List Specifier)
  candidates : List Candidate
deriving Repr, DecidableEq

/-- The external collaborators of the loader chain, plus the host tool
version `PYB_VERSION` (a module-level constant in the source, determined
by the installed distribution). -/
structure LoaderEnv where
  importModule : String → Option PluginModule
  installer : String → Nat × String
  pybVersion : List Nat

/-- What one `load_plugin` call produced: the Python return value or the
exception raised (`Except.ok none` is a `return None`), together with the
module names passed to the import collaborator, in order. -/
structure LoadOutcome where
  result : Except PybError (Option PluginModule)
  importsAttempted : List String

/-- `_check_plugin_version(plugin_module, plugin_name)`: a declared
requirement that does not contain the host version raises
`IncompatiblePluginException(plugin_name, required, PYB_VERSION)`; an
absent (or falsy) requirement always passes. -/
def check_plugin_version (pybVersion : List Nat) (plugin_module : PluginModule)
    (plugin_name : String) : Except PybError Unit :=
  match plugin_module.pyb_version with
  | some required =>
    if specSetContains required pybVersion then Except.ok ()
    else Except.error (PybError.incompatiblePlugin plugin_name required pybVersion)
  | none => Except.ok ()

/-- `_load_plugin(plugin_module_name, plugin_name)`: import the module
(an `ImportError` becomes `MissingPluginException(plugin_name, ...)`),
then apply the version gate, whose error propagates unchanged. -/
def load_plugin_fn (env : LoaderEnv) (plugin_module_name plugin_name : String) : LoadOutcome :=
  match env.importModule plugin_module_name with
  | none =>
    LoadOutcome.mk
      (Except.error (PybError.missingPlugin plugin_name ("No module named " ++ plugin_module_name)))
      [plugin_module_name]
  | some plugin_module =>
    match check_plugin_version env.pybVersion plugin_module plugin_name with
    | Except.ok _ => LoadOutcome.mk (Except.ok (some plugin_module)) [plugin_module_name]
    | Except.error e => LoadOutcome.mk (Except.error e) [plugin_module_name]

/-- `BuiltinPluginLoader.load_plugin`: derive the conventional module name
`pybuilder.plugins.<name>_plugin` unless an explicit module name
overrides it, then import and version-check. -/
def BuiltinPluginLoader.load_plugin (env : LoaderEnv) (name : String) (version : Option String)
    (plugin_module_name : Option String) : LoadOutcome :=
  load_plugin_fn env (pyOr plugin_module_name ("pybuilder.plugins." ++ name ++ "_plugin")) name

/-- `ThirdPartyPluginLoader.load_plugin`: strip a `pypi:` protocol, or for
a `vcs:` protocol require the explicit module name (raising
`UnspecifiedPluginNameException(name)` otherwise), then import and
version-check. -/
def ThirdPartyPluginLoader.load_plugin (env : LoaderEnv) (name : String) (version : Option String)
    (plugin_module_name : Option String) : LoadOutcome :=
  if strStarts name PYPI_PLUGIN_PROTOCOL then
    load_plugin_fn env (pyReplace name PYPI_PLUGIN_PROTOCOL "") name
  else if strStarts name VCS_PLUGIN_PROTOCOL then
    match truthy plugin_module_name with
    | none => LoadOutcome.mk (Except.error (PybError.unspecifiedPluginName name)) []
    | some mn => load_plugin_fn env mn name
  else
    load_plugin_fn env name name

/-- The pip package reference `_install_external_plugin` builds: protocol
stripped, and for `pypi:` identifiers the version string appended when
given.  The final branch is unreachable under the protocol guard. -/
def pip_package_of (name : String) (version : Option String) : String :=
  if strStarts name PYPI_PLUGIN_PROTOCOL then
    pyReplace name PYPI_PLUGIN_PROTOCOL "" ++
      (match truthy version with
       | some v => v
       | none => "")
  else if strStarts name VCS_PLUGIN_PROTOCOL then
    pyReplace name VCS_PLUGIN_PROTOCOL ""
  else name

/-- `_install_external_plugin(name, version, logger, plugin_module_name)`:
an identifier with neither protocol raises `MissingPluginException`
immediately; otherwise the installer runs on the package reference and a
nonzero exit status raises `MissingPluginException(name, "Failed to
install plugin from <package>")` — the captured log text is only written
to the logger, not carried in the exception. -/
def install_external_plugin (installer : String → Nat × String) (name : String)
    (version : Option String) (plugin_module_name : Option String) : Except PybError Unit :=
  if strStarts name PYPI_PLUGIN_PROTOCOL = false ∧ strStarts name VCS_PLUGIN_PROTOCOL = false then
    Except.error (PybError.missingPlugin name
      "Only plugins starting with (pypi:, vcs:) are currently supported")
  else
    if (installer (pip_package_of name version)).1 ≠ 0 then
      Except.error (PybError.missingPlugin name
        ("Failed to install plugin from " ++ pip_package_of name version))
    else Except.ok ()

/-- `DownloadingPluginLoader.load_plugin`: run the external installer; a
`MissingPluginException` from it is caught, logged and turned into
`return None`; on success delegate to `ThirdPartyPluginLoader.load_plugin`. -/
def DownloadingPluginLoader.load_plugin (env : LoaderEnv) (name : String) (version : Option String)
    (plugin_module_name : Option String) : LoadOutcome :=
  match install_external_plugin env.installer name version plugin_module_name with
  | Except.error e =>
    if isMissingErr e then LoadOutcome.mk (Except.ok none) []
    else LoadOutcome.mk (Except.error e) []
  | Except.ok _ => ThirdPartyPluginLoader.load_plugin env name version plugin_module_name

/-- Outcome of one `DispatchingPluginLoader.load_plugin` call: a returned
value, a raised error, or the `raise None` a fully-missing empty chain
would reach. -/
inductive DispatchResult where
  | ok (m : Option PluginModule)
  | err (e : PybError)
  | raiseNone
deriving Repr, DecidableEq

/-- Whether a strategy outcome is a raised `MissingPluginException` (the
only case the dispatch loop catches). -/
def raisesMissing : Except PybError (Option PluginModule) → Bool
  | Except.error e => isMissingErr e
  | Except.ok _ => false

/-- The dispatch loop of `DispatchingPluginLoader.load_plugin` over the
outcomes of its configured strategies (for fixed arguments each strategy
object determines one outcome), carrying `last_problem`.  The `Nat`
counts how many strategies were actually invoked. -/
def dispatchGo : Option PybError → List (Except PybError (Option PluginModule)) →
    DispatchResult × Nat
  | some e, [] => (DispatchResult.err e, 0)
  | none, [] => (DispatchResult.raiseNone, 0)
  | last_problem, r :: rs =>
    match r with
    | Except.ok m => (DispatchResult.ok m, 1)
    | Except.error e =>
      if isMissingErr e then
        ((dispatchGo (some e) rs).1, (dispatchGo (some e) rs).2 + 1)
      else (DispatchResult.err e, 1)

/-- `DispatchingPluginLoader.load_plugin`: try each strategy in order,
falling through on `MissingPluginException` only, and re-raise the last
such error when the chain is exhausted. -/
def DispatchingPluginLoader.load_plugin
    (strategies : List (Except PybError (Option PluginModule))) : DispatchResult × Nat :=
  dispatchGo none strategies

/-- The strategy outcomes of the default chain `Reactor.__init__` wires
up: builtin, already-installed third-party, then downloading. -/
def defaultLoaderResults (env : LoaderEnv) (name : String) (version : Option String)
    (plugin_module_name : Option String) : List (Except PybError (Option PluginModule)) :=
  [(BuiltinPluginLoader.load_plugin env name version plugin_module_name).result,
   (ThirdPartyPluginLoader.load_plugin env name version plugin_module_name).result,
   (DownloadingPluginLoader.load_plugin env name version plugin_module_name).result]

/-!
Orchestrator bookkeeping (`Reactor.require_plugin`, reactor.py lines 71-78).
-/

/-- The reactor state the claims observe: the plugin registry
`self._plugins` (an ordered list, unique by identifier) and the stream of
registration calls made on the execution engine so far. -/
structure ReactorState where
  plugins : List String
  events : List RegEvent
deriving Repr, DecidableEq

/-- Python `list.remove(x)`: drop the first occurrence. -/
def removeFirst : List String → String → List String
  | [], _ => []
  | x :: xs, p => if x = p then xs else x :: removeFirst xs p

/-- `Reactor.require_plugin(plugin, version, plugin_module_name)`.  The
combined effect of the `import_plugin` call (plugin load plus graph
assembly) is abstracted as its outcome: the error it raised (if any) and
the registration events it performed before returning or raising.  If the
identifier is already registered nothing happens; otherwise it is
appended optimistically, and on any error it is removed again and the
error re-raised (the second component of the result). -/
def require_plugin (st : ReactorState) (plugin : String)
    (outcome : Option PybError × List RegEvent) : ReactorState × Option PybError :=
  if plugin ∈ st.plugins then (st, none)
  else
    match outcome with
    | (none, evs) =>
      (ReactorState.mk (st.plugins ++ [plugin]) (st.events ++ evs), none)
    | (some e, evs) =>
      (ReactorState.mk (removeFirst (st.plugins ++ [plugin]) plugin) (st.events ++ evs), some e)

/-- Run a sequence of `require_plugin` calls, each given as the
identifier together with the outcome its `import_plugin` step would
produce. -/
def runRequires (st : ReactorState) :
    List (String × Option PybError × List RegEvent) → ReactorState
  | [] => st
  | c :: cs => runRequires (require_plugin st c.1 c.2).1 cs

/-- Convert a dispatch outcome back into the value/exception view
`Reactor.import_plugin` sees from `self.plugin_loader.load_plugin`. -/
def dispatchToLoad : DispatchResult → Except PybError (Option PluginModule)
  | DispatchResult.ok m => Except.ok m
  | DispatchResult.err e => Except.error e
  | DispatchResult.raiseNone => Except.error (PybError.otherError "TypeError: raise None")

/-- `Reactor.import_plugin` (reactor.py lines 202-205) given the loader
outcome: a raised load error propagates with no registrations; a returned
module is fed to the graph assembler.  A `None` return (the downloading
loader's failure path) reaches `collect_tasks_and_actions_and_initializers(None)`,
which scans `dir(None)`, finds no role-marked candidate, registers
nothing and raises nothing. -/
def import_plugin_outcome (loaded : Except PybError (Option PluginModule)) :
    Option PybError × List RegEvent :=
  match loaded with
  | Except.error e => (some e, [])
  | Except.ok none => (none, [])
  | Except.ok (some m) => (none, collect_tasks_and_actions_and_initializers m.candidates)

/-!
Auxiliary definitions used by the theorems below.
-/

/-- The dispatch outcome determined by the first strategy the loop
actually consults when that strategy is not skipped: a returned value is
returned, a raised error is raised. -/
def firstDispatch : Except PybError (Option PluginModule) → DispatchResult
  | Except.ok m => DispatchResult.ok m
  | Except.error e => DispatchResult.err e

/-- The dependencies recorded under one key, in order, from a list of
(key, dependency) contribution pairs. -/
def selectKey (key : Option String) : List (Option String × TaskDependency) → List TaskDependency
  | [] => []
  | p :: ps => if p.1 = key then p.2 :: selectKey key ps else selectKey key ps

/-- Order-preserving concatenation of the images of a list's elements. -/
def concatMapL {α β : Type} (f : α → List β) : List α → List β
  | [] => []
  | x :: xs => f x ++ concatMapL f xs

/-- The (key, dependency) pairs Pass 1 records for one element of a
task's `dependents` list, written directly as the spec describes them:
each listed target contributes, under the target's normalized name, a
dependency pointing at the current candidate, optional exactly when the
target came wrapped. -/
def dependentsEntryPairs (c : Candidate) : DependentsEntry → List (Option String × TaskDependency)
  | DependentsEntry.optionalT ts =>
    ts.map (fun t =>
      (normalizeTargetKey t, mkTaskDependency (TargetRef.obj c.nameAttr c.dunderName) true))
  | DependentsEntry.plainT ts =>
    ts.map (fun t =>
      (normalizeTargetKey t, mkTaskDependency (TargetRef.obj c.nameAttr c.dunderName) false))

/-- All Pass-1 contribution pairs of one candidate, in declaration
order. -/
def pass1Pairs (c : Candidate) : List (Option String × TaskDependency) :=
  if c.task then concatMapL (dependentsEntryPairs c) c.dependents else []

/-- The dependencies Pass 1 accumulates for a given task name over the
whole module, in accumulation order (module order, then declaration order
within a candidate): the spec-level description of the injected
dependencies. -/
def injectedFor (module : List Candidate) (key : Option String) : List TaskDependency :=
  selectKey key (concatMapL pass1Pairs module)

/-- A task's declared forward dependencies written directly as the
order-preserving concatenation of its expanded `depends` entries: the
spec-level description of the declared dependencies. -/
def declaredDepsSpec (c : Candidate) : List TaskDependency :=
  concatMapL dependsEntryDeps c.depends

/-!
Concrete fixtures for witnesses and counterexamples.
-/

/-- An environment in which nothing is importable and the installer
always fails with exit code 1, leaving some text in the captured log. -/
def failInstallEnv : LoaderEnv :=
  LoaderEnv.mk (fun _ => none) (fun _ => (1, "pip error: no matching distribution found")) [0, 0, 1]

/-- A module whose import succeeds and which declares no compatibility
requirement. -/
def plainModule : PluginModule :=
  PluginModule.mk "example_plugin" none []

/-- An environment in which exactly the module `example_plugin` can be
imported and the installer always succeeds. -/
def okImportEnv : LoaderEnv :=
  LoaderEnv.mk (fun n => if n = "example_plugin" then some plainModule else none)
    (fun _ => (0, "")) [0, 0, 1]

/-- An environment parameterized by the installer's exit code and
captured log text, in which nothing is importable. -/
def varInstallEnv (code : Nat) (log : String) : LoaderEnv :=
  LoaderEnv.mk (fun _ => none) (fun _ => (code, log)) [0, 0, 1]

/-- Witness candidate `a`: a task with no forward dependencies declaring
the dependent `b` (so `b` must come to depend on `a`). -/
def candA : Candidate :=
  Candidate.mk (some "a") none true [] [DependentsEntry.plainT [TargetRef.str "b"]]
    false none none false false false [] ""

/-- Witness candidate `b`: a task with one plain and one optional-wrapped
pair of forward dependencies and no dependents. -/
def candB : Candidate :=
  Candidate.mk (some "b") none true
    [DependsEntry.plainD (TargetRef.str "x"), DependsEntry.optionalD [TargetRef.str "y", TargetRef.str "z"]]
    [] false none none false false false [] ""

/-- The witness module for the graph assembler: candidates `a` and `b`
in that order. -/
def witnessModule : List Candidate := [candA, candB]

/-!
Helper lemmas.
-/

/-- A string starting with `vcs:` does not start with `pypi:`. -/
theorem vcs_not_pypi (s : String) (h : strStarts s VCS_PLUGIN_PROTOCOL = true) :
    strStarts s PYPI_PLUGIN_PROTOCOL = false := by
  have hv : VCS_PLUGIN_PROTOCOL.toList = ['v', 'c', 's', ':'] := rfl
  have hp : PYPI_PLUGIN_PROTOCOL.toList = ['p', 'y', 'p', 'i', ':'] := rfl
  unfold strStarts at h ⊢
  rw [hv] at h
  rw [hp]
  cases hs : s.toList with
  | nil => rw [hs] at h; simp [listStarts] at h
  | cons c cs =>
    rw [hs] at h
    simp only [listStarts, Bool.and_eq_true, decide_eq_true_eq] at h
    obtain ⟨hc, _⟩ := h
    subst hc
    simp [listStarts]

/-- Skipping lemma for the dispatch loop: strategies raising
`MissingPluginException` are fallen through, and the first strategy that
does not raise it determines the outcome; later strategies are not
consulted. -/
theorem dispatchGo_skip (r : Except PybError (Option PluginModule))
    (post : List (Except PybError (Option PluginModule))) (hr : raisesMissing r = false) :
    ∀ (pre : List (Except PybError (Option PluginModule))) (lp : Option PybError),
      (∀ x ∈ pre, raisesMissing x = true) →
      dispatchGo lp (pre ++ r :: post) = (firstDispatch r, pre.length + 1) := by
  intro pre
  induction pre with
  | nil =>
    intro lp _
    cases r with
    | ok m => simp [dispatchGo, firstDispatch]
    | error e =>
      have he : isMissingErr e = false := hr
      simp [dispatchGo, firstDispatch, he]
  | cons x pre ih =>
    intro lp hall
    have hx : raisesMissing x = true := hall x (by simp)
    cases x with
    | ok m => simp [raisesMissing] at hx
    | error e =>
      have he : isMissingErr e = true := hx
      have hrest : ∀ y ∈ pre, raisesMissing y = true := fun y hy => hall y (by simp [hy])
      simp only [List.cons_append, dispatchGo, he, if_true, ih (some e) hrest]
      simp [List.length_cons]

/-- Exhaustion lemma for the dispatch loop: when every strategy raises
`MissingPluginException`, the loop re-raises the error of the last one. -/
theorem dispatchGo_all_missing (e : PybError) (he : isMissingErr e = true) :
    ∀ (pre : List (Except PybError (Option PluginModule))) (lp : Option PybError),
      (∀ x ∈ pre, raisesMissing x = true) →
      dispatchGo lp (pre ++ [Except.error e]) = (DispatchResult.err e, pre.length + 1) := by
  intro pre
  induction pre with
  | nil =>
    intro lp _
    simp [dispatchGo, he]
  | cons x pre ih =>
    intro lp hall
    have hx : raisesMissing x = true := hall x (by simp)
    cases x with
    | ok m => simp [raisesMissing] at hx
    | error e2 =>
      have he2 : isMissingErr e2 = true := hx
      have hrest : ∀ y ∈ pre, raisesMissing y = true := fun y hy => hall y (by simp [hy])
      simp only [List.cons_append, dispatchGo, he2, if_true, ih (some e2) hrest]
      simp [List.length_cons]

/-- `list.remove` of a freshly appended element restores the original
list when the element was not present before. -/
theorem removeFirst_append_self (l : List String) (p : String) (h : p ∉ l) :
    removeFirst (l ++ [p]) p = l := by
  induction l with
  | nil => simp [removeFirst]
  | cons x xs ih =>
    have hx : x ≠ p := by
      intro hh
      exact h (by simp [hh])
    have h2 : p ∉ xs := by
      intro hh
      exact h (by simp [hh])
    simp [removeFirst, hx, ih h2]

/-- Registry membership after one `require_plugin` call: an identifier is
in the registry afterwards iff it was there before or it is the required
identifier and the call's import step raised no error. -/
theorem mem_require_plugin (st : ReactorState) (p q : String)
    (outcome : Option PybError × List RegEvent) :
    q ∈ (require_plugin st p outcome).1.plugins ↔
      q ∈ st.plugins ∨ (q = p ∧ outcome.1 = none) := by
  unfold require_plugin
  by_cases hp : p ∈ st.plugins
  · rw [if_pos hp]
    constructor
    · intro h
      exact Or.inl h
    · rintro (h | ⟨rfl, _⟩)
      · exact h
      · exact hp
  · rw [if_neg hp]
    obtain ⟨o, evs⟩ := outcome
    cases o with
    | none => simp
    | some e => simp [removeFirst_append_self st.plugins p hp]

/-- Registry membership after a sequence of `require_plugin` calls. -/
theorem mem_runRequires (q : String) :
    ∀ (calls : List (String × Option PybError × List RegEvent)) (st : ReactorState),
      q ∈ (runRequires st calls).plugins ↔
        q ∈ st.plugins ∨ ∃ c ∈ calls, c.1 = q ∧ c.2.1 = none := by
  intro calls
  induction calls with
  | nil =>
    intro st
    simp [runRequires]
  | cons c cs ih =>
    intro st
    rw [runRequires, ih, mem_require_plugin]
    simp only [List.mem_cons]
    constructor
    · rintro ((h | ⟨rfl, ho⟩) | ⟨d, hd, h1, h2⟩)
      · exact Or.inl h
      · exact Or.inr ⟨c, Or.inl rfl, rfl, ho⟩
      · exact Or.inr ⟨d, Or.inr hd, h1, h2⟩
    · rintro (h | ⟨d, (rfl | hd), h1, h2⟩)
      · exact Or.inl (Or.inl h)
      · exact Or.inl (Or.inr ⟨h1.symm, h2⟩)
      · exact Or.inr ⟨d, hd, h1, h2⟩

/-- `selectKey` distributes over concatenation. -/
theorem selectKey_append (key : Option String) (a b : List (Option String × TaskDependency)) :
    selectKey key (a ++ b) = selectKey key a ++ selectKey key b := by
  induction a with
  | nil => simp [selectKey]
  | cons p ps ih =>
    by_cases h : p.1 = key
    · simp [selectKey, h, ih]
    · simp [selectKey, h, ih]

/-- Pointwise reading of `addInjected`. -/
theorem addInjected_apply (m : InjMap) (k key : Option String) (td : TaskDependency) :
    addInjected m k td key = if key = k then m key ++ [td] else m key := rfl

/-- Pointwise reading of the `add_task_dependency` helper: under any key
it appends exactly the contributions recorded for that key, in target
order. -/
theorem add_task_dependency_apply (dep : TargetRef) (opt : Bool) (key : Option String) :
    ∀ (ts : List TargetRef) (m : InjMap),
      add_task_dependency m ts dep opt key =
        m key ++ selectKey key
          (ts.map (fun t => (normalizeTargetKey t, mkTaskDependency dep opt))) := by
  intro ts
  induction ts with
  | nil =>
    intro m
    simp [add_task_dependency, selectKey]
  | cons t ts ih =>
    intro m
    have hstep :
        add_task_dependency m (t :: ts) dep opt =
          add_task_dependency (addInjected m (normalizeTargetKey t) (mkTaskDependency dep opt))
            ts dep opt := by
      simp [add_task_dependency]
    rw [hstep, ih, addInjected_apply]
    by_cases h : normalizeTargetKey t = key
    · rw [if_pos h.symm]
      simp [selectKey, h]
    · rw [if_neg (fun hh => h hh.symm)]
      simp [selectKey, h]

/-- Pointwise reading of one Pass-1 `dependents` entry. -/
theorem pass1Entry_apply (c : Candidate) (d : DependentsEntry) (key : Option String) (m : InjMap) :
    pass1Entry c m d key = m key ++ selectKey key (dependentsEntryPairs c d) := by
  cases d with
  | optionalT ts => rw [pass1Entry, dependentsEntryPairs, add_task_dependency_apply]
  | plainT ts => rw [pass1Entry, dependentsEntryPairs, add_task_dependency_apply]

/-- Pointwise reading of the Pass-1 fold over a candidate's `dependents`
list. -/
theorem foldl_pass1Entry_apply (c : Candidate) (key : Option String) :
    ∀ (ds : List DependentsEntry) (m : InjMap),
      (List.foldl (pass1Entry c) m ds) key =
        m key ++ selectKey key (concatMapL (dependentsEntryPairs c) ds) := by
  intro ds
  induction ds with
  | nil =>
    intro m
    simp [concatMapL, selectKey]
  | cons d ds ih =>
    intro m
    rw [List.foldl_cons, ih, pass1Entry_apply, concatMapL, selectKey_append, List.append_assoc]

/-- Pointwise reading of Pass 1 for one candidate. -/
theorem pass1Candidate_apply (c : Candidate) (key : Option String) (m : InjMap) :
    pass1Candidate m c key = m key ++ selectKey key (pass1Pairs c) := by
  unfold pass1Candidate pass1Pairs
  by_cases h : c.task
  · rw [if_pos h, if_pos h, foldl_pass1Entry_apply]
  · rw [if_neg h, if_neg h]
    simp [selectKey]

/-- Pointwise reading of the Pass-1 fold over the whole module. -/
theorem foldl_pass1Candidate_apply (key : Option String) :
    ∀ (l : List Candidate) (m : InjMap),
      (List.foldl pass1Candidate m l) key =
        m key ++ selectKey key (concatMapL pass1Pairs l) := by
  intro l
  induction l with
  | nil =>
    intro m
    simp [concatMapL, selectKey]
  | cons c cs ih =>
    intro m
    rw [List.foldl_cons, ih, pass1Candidate_apply, concatMapL, selectKey_append, List.append_assoc]

/-- The Pass-1 accumulator holds, under every task name, exactly the
dependencies harvested for that name over the module in accumulation
order. -/
theorem buildInjected_eq_injectedFor (module : List Candidate) (key : Option String) :
    buildInjected module key = injectedFor module key := by
  unfold buildInjected injectedFor
  rw [foldl_pass1Candidate_apply]
  rfl

/-- The source's left fold building a task's declared dependency list
equals the direct order-preserving concatenation of its expanded
`depends` entries. -/
theorem declaredDeps_eq_spec (c : Candidate) : declaredDeps c = declaredDepsSpec c := by
  unfold declaredDeps declaredDepsSpec
  have hgen : ∀ (ds : List DependsEntry) (acc : List TaskDependency),
      List.foldl (fun acc d => acc ++ dependsEntryDeps d) acc ds =
        acc ++ concatMapL dependsEntryDeps ds := by
    intro ds
    induction ds with
    | nil =>
      intro acc
      simp [concatMapL]
    | cons d ds ih =>
      intro acc
      rw [List.foldl_cons, ih, concatMapL, List.append_assoc]
  rw [hgen]
  rfl

/-!
Claim theorems.
-/

/-- C1 (counterexample): for the identifier `pypi:example-plugin` with no
version, with the installer exiting nonzero, the claimed behavior — a
raised `MissingPluginError` containing the captured log text, re-raised
by `DispatchingPluginLoader` — does not occur: the install failure is
converted to a `MissingPluginError` whose message does not carry the
captured log, `DownloadingPluginLoader` catches that error and returns
`None`, and the dispatcher (downloading last in the default chain)
returns `None` instead of raising. -/
theorem c1_downloading_counterexample :
    install_external_plugin failInstallEnv.installer "pypi:example-plugin" none none =
      Except.error (PybError.missingPlugin "pypi:example-plugin"
        "Failed to install plugin from example-plugin") ∧
    (DownloadingPluginLoader.load_plugin failInstallEnv "pypi:example-plugin" none none).result =
      Except.ok none ∧
    (DispatchingPluginLoader.load_plugin
        (defaultLoaderResults failInstallEnv "pypi:example-plugin" none none)).1 =
      DispatchResult.ok none :=
  ⟨rfl, rfl, rfl⟩

/-- C1 (amended): for `pypi:example-plugin` with no version, whenever the
installer exits with a nonzero status, `_install_external_plugin` raises
a `MissingPluginError` naming the failed package (the captured log text
is only logged, not carried in the error), `DownloadingPluginLoader`
catches it and returns `None`, and `DispatchingPluginLoader` with the
Downloading strategy last returns `None` to its caller rather than
raising. -/
theorem c1_install_failure_amended (code : Nat) (log : String) (h : code ≠ 0) :
    install_external_plugin (varInstallEnv code log).installer "pypi:example-plugin" none none =
      Except.error (PybError.missingPlugin "pypi:example-plugin"
        "Failed to install plugin from example-plugin") ∧
    (DownloadingPluginLoader.load_plugin (varInstallEnv code log) "pypi:example-plugin" none
        none).result = Except.ok none ∧
    (DispatchingPluginLoader.load_plugin
        (defaultLoaderResults (varInstallEnv code log) "pypi:example-plugin" none none)).1 =
      DispatchResult.ok none := by
  have hpkg : pip_package_of "pypi:example-plugin" none = "example-plugin" := rfl
  have hinst : install_external_plugin (varInstallEnv code log).installer "pypi:example-plugin"
      none none =
      Except.error (PybError.missingPlugin "pypi:example-plugin"
        "Failed to install plugin from example-plugin") := by
    unfold install_external_plugin
    rw [if_neg (by decide :
      ¬(strStarts "pypi:example-plugin" PYPI_PLUGIN_PROTOCOL = false ∧
        strStarts "pypi:example-plugin" VCS_PLUGIN_PROTOCOL = false))]
    have hcond : ((varInstallEnv code log).installer
        (pip_package_of "pypi:example-plugin" none)).1 ≠ 0 := h
    rw [if_pos hcond, hpkg]
    rfl
  have hdown : (DownloadingPluginLoader.load_plugin (varInstallEnv code log) "pypi:example-plugin"
      none none).result = Except.ok none := by
    unfold DownloadingPluginLoader.load_plugin
    rw [hinst]
    rfl
  refine ⟨hinst, hdown, ?_⟩
  have hb : (BuiltinPluginLoader.load_plugin (varInstallEnv code log) "pypi:example-plugin" none
      none).result =
      Except.error (PybError.missingPlugin "pypi:example-plugin"
        "No module named pybuilder.plugins.pypi:example-plugin_plugin") := rfl
  have htp : (ThirdPartyPluginLoader.load_plugin (varInstallEnv code log) "pypi:example-plugin"
      none none).result =
      Except.error (PybError.missingPlugin "pypi:example-plugin"
        "No module named example-plugin") := rfl
  unfold DispatchingPluginLoader.load_plugin defaultLoaderResults
  rw [hb, htp, hdown]
  rfl

/-- Witness for C1 (amended) at exit code 1 and a concrete log text. -/
theorem c1_install_failure_amended_witness :
    install_external_plugin (varInstallEnv 1 "pip log text").installer "pypi:example-plugin" none
        none =
      Except.error (PybError.missingPlugin "pypi:example-plugin"
        "Failed to install plugin from example-plugin") ∧
    (DownloadingPluginLoader.load_plugin (varInstallEnv 1 "pip log text") "pypi:example-plugin"
        none none).result = Except.ok none ∧
    (DispatchingPluginLoader.load_plugin
        (defaultLoaderResults (varInstallEnv 1 "pip log text") "pypi:example-plugin" none none)).1 =
      DispatchResult.ok none :=
  c1_install_failure_amended 1 "pip log text" (by decide)

/-- C2 (counterexample): after requiring `pypi:example-plugin` on a fresh
reactor whose default loader chain runs against a failing installer, the
identifier remains in the registry even though the plugin's acquisition
failed — the dispatcher returned `None` (no module was loaded, the
installer exited 1), yet no rollback happens because no error was
raised. -/
theorem c2_registry_counterexample :
    (require_plugin (ReactorState.mk [] []) "pypi:example-plugin"
        (import_plugin_outcome (dispatchToLoad
          (DispatchingPluginLoader.load_plugin
            (defaultLoaderResults failInstallEnv "pypi:example-plugin" none none)).1))).1.plugins =
      ["pypi:example-plugin"] ∧
    (DispatchingPluginLoader.load_plugin
        (defaultLoaderResults failInstallEnv "pypi:example-plugin" none none)).1 =
      DispatchResult.ok none ∧
    (failInstallEnv.installer "example-plugin").1 = 1 :=
  ⟨rfl, rfl, rfl⟩

/-- C2 (amended): after any sequence of `require_plugin` calls on a fresh
reactor, each call taken with the outcome of its load/assembly step, the
registry contains exactly the identifiers that had at least one call
whose load and assembly raised no error.  (A load that fails without
raising — the downloading loader's `None` result — counts as raising no
error, which is how a failed acquisition can remain registered.) -/
theorem c2_registry_membership (calls : List (String × Option PybError × List RegEvent))
    (p : String) :
    p ∈ (runRequires (ReactorState.mk [] []) calls).plugins ↔
      ∃ c ∈ calls, c.1 = p ∧ c.2.1 = none := by
  rw [mem_runRequires]
  simp

/-- C3: for an identifier not already registered, if the load or
graph-assembly step raises any error, the registry after the
`require_plugin` call is exactly the registry before it, and the same
error is re-raised to the caller. -/
theorem c3_rollback_on_failure (st : ReactorState) (plugin : String) (e : PybError)
    (evs : List RegEvent) (h : plugin ∉ st.plugins) :
    (require_plugin st plugin (some e, evs)).1.plugins = st.plugins ∧
    (require_plugin st plugin (some e, evs)).2 = some e := by
  unfold require_plugin
  rw [if_neg h]
  exact ⟨removeFirst_append_self st.plugins plugin h, rfl⟩

/-- Witness for C3: requiring a new plugin over a registry `["core"]`
with a failing import leaves the registry `["core"]` and re-raises the
error. -/
theorem c3_rollback_on_failure_witness :
    (require_plugin (ReactorState.mk ["core"] []) "pypi:newplugin"
        (some (PybError.otherError "boom"), [])).1.plugins = ["core"] ∧
    (require_plugin (ReactorState.mk ["core"] []) "pypi:newplugin"
        (some (PybError.otherError "boom"), [])).2 = some (PybError.otherError "boom") :=
  c3_rollback_on_failure (ReactorState.mk ["core"] []) "pypi:newplugin"
    (PybError.otherError "boom") [] (by decide)

/-- C8: for an identifier already present in the registry,
`require_plugin` is a no-op: whatever the import step would have done,
the state (registry and registration events) is returned unchanged and
nothing is raised, so the module is not re-imported and nothing is
registered again. -/
theorem c8_idempotent_by_identifier (st : ReactorState) (plugin : String)
    (outcome : Option PybError × List RegEvent) (h : plugin ∈ st.plugins) :
    require_plugin st plugin outcome = (st, none) := by
  unfold require_plugin
  rw [if_pos h]

/-- Witness for C8: re-requiring a registered plugin ignores even an
outcome that would have raised and registered events. -/
theorem c8_idempotent_by_identifier_witness :
    require_plugin (ReactorState.mk ["pypi:example-plugin"] []) "pypi:example-plugin"
        (some (PybError.otherError "would have failed"),
         [RegEvent.task (some "t") [] ""]) =
      (ReactorState.mk ["pypi:example-plugin"] [], none) :=
  c8_idempotent_by_identifier (ReactorState.mk ["pypi:example-plugin"] []) "pypi:example-plugin"
    (some (PybError.otherError "would have failed"), [RegEvent.task (some "t") [] ""])
    (by decide)

/-- C4: the dispatch loop tries its strategies in order and returns the
result of the first strategy that does not raise `MissingPluginError`
(discarding the earlier missing-plugin errors and consulting exactly the
strategies up to and including it); if every strategy raises
`MissingPluginError`, the last such error is re-raised. -/
theorem c4_dispatch_first_success :
    (∀ (pre post : List (Except PybError (Option PluginModule))) (m : Option PluginModule),
        (∀ x ∈ pre, raisesMissing x = true) →
        DispatchingPluginLoader.load_plugin (pre ++ Except.ok m :: post) =
          (DispatchResult.ok m, pre.length + 1)) ∧
    (∀ (pre : List (Except PybError (Option PluginModule))) (e : PybError),
        (∀ x ∈ pre, raisesMissing x = true) → isMissingErr e = true →
        DispatchingPluginLoader.load_plugin (pre ++ [Except.error e]) =
          (DispatchResult.err e, pre.length + 1)) := by
  constructor
  · intro pre post m hpre
    unfold DispatchingPluginLoader.load_plugin
    exact dispatchGo_skip (Except.ok m) post rfl pre none hpre
  · intro pre e hpre he
    unfold DispatchingPluginLoader.load_plugin
    exact dispatchGo_all_missing e he pre none hpre

/-- Witness for C4: with strategies [A raising missing, B succeeding] the
result is B's module; with [A missing, B missing] the second (last)
missing error is re-raised. -/
theorem c4_dispatch_first_success_witness :
    DispatchingPluginLoader.load_plugin
        [Except.error (PybError.missingPlugin "p" "not found"), Except.ok (some plainModule)] =
      (DispatchResult.ok (some plainModule), 2) ∧
    DispatchingPluginLoader.load_plugin
        [Except.error (PybError.missingPlugin "p" "not found"),
         Except.error (PybError.missingPlugin "p" "still not found")] =
      (DispatchResult.err (PybError.missingPlugin "p" "still not found"), 2) :=
  ⟨c4_dispatch_first_success.1 [Except.error (PybError.missingPlugin "p" "not found")] []
      (some plainModule) (by decide),
   c4_dispatch_first_success.2 [Except.error (PybError.missingPlugin "p" "not found")]
      (PybError.missingPlugin "p" "still not found") (by decide) rfl⟩

/-- C5: a strategy error other than `MissingPluginError` propagates
immediately — the dispatcher raises exactly that error after consulting
only the strategies up to it, never reaching the rest of the chain even
when a later strategy would have succeeded. -/
theorem c5_fatal_error_aborts_chain (pre post : List (Except PybError (Option PluginModule)))
    (e : PybError) (hpre : ∀ x ∈ pre, raisesMissing x = true) (he : isMissingErr e = false) :
    DispatchingPluginLoader.load_plugin (pre ++ Except.error e :: post) =
      (DispatchResult.err e, pre.length + 1) := by
  unfold DispatchingPluginLoader.load_plugin
  exact dispatchGo_skip (Except.error e) post he pre none hpre

/-- Witness for C5: an `IncompatiblePluginError` from the second strategy
is raised after two attempts although the third strategy would have
succeeded; an `UnspecifiedPluginNameError` likewise aborts at once. -/
theorem c5_fatal_error_aborts_chain_witness :
    DispatchingPluginLoader.load_plugin
        [Except.error (PybError.missingPlugin "p" "not found"),
         Except.error (PybError.incompatiblePlugin "p" [Specifier.mk SpecOp.ge [2, 0]] [1, 9, 0]),
         Except.ok (some plainModule)] =
      (DispatchResult.err
        (PybError.incompatiblePlugin "p" [Specifier.mk SpecOp.ge [2, 0]] [1, 9, 0]), 2) ∧
    DispatchingPluginLoader.load_plugin
        [Except.error (PybError.unspecifiedPluginName "vcs:p"), Except.ok (some plainModule)] =
      (DispatchResult.err (PybError.unspecifiedPluginName "vcs:p"), 1) :=
  ⟨c5_fatal_error_aborts_chain [Except.error (PybError.missingPlugin "p" "not found")]
      [Except.ok (some plainModule)]
      (PybError.incompatiblePlugin "p" [Specifier.mk SpecOp.ge [2, 0]] [1, 9, 0])
      (by decide) rfl,
   c5_fatal_error_aborts_chain [] [Except.ok (some plainModule)]
      (PybError.unspecifiedPluginName "vcs:p") (by decide) rfl⟩

/-- C6: for every identifier with the `vcs:` protocol and no explicit
module name (none given, or the falsy empty string),
`ThirdPartyPluginLoader.load_plugin` raises `UnspecifiedPluginNameError`
for that identifier, and does so before any import attempt — the import
collaborator is never consulted. -/
theorem c6_vcs_requires_module_name (env : LoaderEnv) (name : String) (version : Option String)
    (plugin_module_name : Option String) (hv : strStarts name VCS_PLUGIN_PROTOCOL = true)
    (hm : truthy plugin_module_name = none) :
    (ThirdPartyPluginLoader.load_plugin env name version plugin_module_name).result =
      Except.error (PybError.unspecifiedPluginName name) ∧
    (ThirdPartyPluginLoader.load_plugin env name version plugin_module_name).importsAttempted =
      [] := by
  have hp := vcs_not_pypi name hv
  unfold ThirdPartyPluginLoader.load_plugin
  rw [hp, hv, hm]
  exact ⟨rfl, rfl⟩

/-- Witness for C6 at the identifier `vcs:somewhere/repo` with no module
name, in an environment where every import would succeed (showing that
the import collaborator is nevertheless not consulted). -/
theorem c6_vcs_requires_module_name_witness :
    (ThirdPartyPluginLoader.load_plugin okImportEnv "vcs:somewhere/repo" none none).result =
      Except.error (PybError.unspecifiedPluginName "vcs:somewhere/repo") ∧
    (ThirdPartyPluginLoader.load_plugin okImportEnv "vcs:somewhere/repo" none
        none).importsAttempted = [] :=
  c6_vcs_requires_module_name okImportEnv "vcs:somewhere/repo" none none (by decide) rfl

/-- C7: the version gate passes every module that declares no
compatibility requirement, and a module declaring `>=2.0,<3.0` checked
against host version `1.9.0` raises `IncompatiblePluginError` carrying
the plugin name, the declared requirement and the actual host version. -/
theorem c7_version_gate :
    (∀ (pybVersion : List Nat) (mn : String) (cands : List Candidate) (plugin_name : String),
        check_plugin_version pybVersion (PluginModule.mk mn none cands) plugin_name =
          Except.ok ()) ∧
    check_plugin_version [1, 9, 0]
        (PluginModule.mk "M" (some [Specifier.mk SpecOp.ge [2, 0], Specifier.mk SpecOp.lt [3, 0]])
          []) "M" =
      Except.error (PybError.incompatiblePlugin "M"
        [Specifier.mk SpecOp.ge [2, 0], Specifier.mk SpecOp.lt [3, 0]] [1, 9, 0]) :=
  ⟨fun _ _ _ _ => rfl, rfl⟩

/-- C9: every task candidate is registered with a dependency list that is
exactly its declared forward dependencies, expanded in declared order,
followed by the dependencies accumulated for its name during Pass 1, in
accumulation order. -/
theorem c9_declared_before_injected (module : List Candidate) (c : Candidate)
    (hc : c ∈ module) (ht : c.task = true) :
    pass2Candidate (buildInjected module) c =
      some (RegEvent.task (normalize_candidate_name c)
        (declaredDepsSpec c ++ injectedFor module (normalize_candidate_name c)) c.description) ∧
    RegEvent.task (normalize_candidate_name c)
        (declaredDepsSpec c ++ injectedFor module (normalize_candidate_name c)) c.description ∈
      collect_tasks_and_actions_and_initializers module := by
  have h1 : pass2Candidate (buildInjected module) c =
      some (RegEvent.task (normalize_candidate_name c)
        (declaredDepsSpec c ++ injectedFor module (normalize_candidate_name c)) c.description) := by
    unfold pass2Candidate
    rw [if_pos ht, declaredDeps_eq_spec, buildInjected_eq_injectedFor]
  refine ⟨h1, ?_⟩
  unfold collect_tasks_and_actions_and_initializers
  exact List.mem_filterMap.mpr ⟨c, hc, h1⟩

/-- Witness for C9: in the module `[a, b]` where task `a` declares the
dependent `b` and task `b` declares forward dependencies `x` (plain) and
`y, z` (optional-wrapped), task `b` is registered with the list
`[x, y?, z?, a]` — declared first in order, injected last. -/
theorem c9_declared_before_injected_witness :
    pass2Candidate (buildInjected witnessModule) candB =
      some (RegEvent.task (normalize_candidate_name candB)
        (declaredDepsSpec candB ++ injectedFor witnessModule (normalize_candidate_name candB))
        candB.description) ∧
    RegEvent.task (normalize_candidate_name candB)
        (declaredDepsSpec candB ++ injectedFor witnessModule (normalize_candidate_name candB))
        candB.description ∈
      collect_tasks_and_actions_and_initializers witnessModule ∧
    declaredDepsSpec candB ++ injectedFor witnessModule (normalize_candidate_name candB) =
      [TaskDependency.mk (some "x") false, TaskDependency.mk (some "y") true,
       TaskDependency.mk (some "z") true, TaskDependency.mk (some "a") false] :=
  ⟨(c9_declared_before_injected witnessModule candB (by decide) rfl).1,
   (c9_declared_before_injected witnessModule candB (by decide) rfl).2, rfl⟩

/-- C10: whenever the installation step fails — the identifier carries
neither the `pypi:` nor the `vcs:` protocol, or the installer exits
nonzero — `DownloadingPluginLoader.load_plugin` raises nothing and
returns `None`, and a dispatcher whose remaining strategies all raised
`MissingPluginError` and whose final strategy is this downloading loader
returns `None` to its caller as a successful result. -/
theorem c10_failed_install_looks_successful (env : LoaderEnv) (name : String)
    (version plugin_module_name : Option String)
    (pre : List (Except PybError (Option PluginModule)))
    (hfail : (strStarts name PYPI_PLUGIN_PROTOCOL = false ∧
        strStarts name VCS_PLUGIN_PROTOCOL = false) ∨
      (env.installer (pip_package_of name version)).1 ≠ 0)
    (hpre : ∀ x ∈ pre, raisesMissing x = true) :
    (DownloadingPluginLoader.load_plugin env name version plugin_module_name).result =
      Except.ok none ∧
    (DispatchingPluginLoader.load_plugin
        (pre ++ [(DownloadingPluginLoader.load_plugin env name version
          plugin_module_name).result])).1 = DispatchResult.ok none := by
  have hinst : ∃ msg, install_external_plugin env.installer name version plugin_module_name =
      Except.error (PybError.missingPlugin name msg) := by
    unfold install_external_plugin
    by_cases hproto : strStarts name PYPI_PLUGIN_PROTOCOL = false ∧
        strStarts name VCS_PLUGIN_PROTOCOL = false
    · rw [if_pos hproto]
      exact ⟨_, rfl⟩
    · rw [if_neg hproto]
      have hexit : (env.installer (pip_package_of name version)).1 ≠ 0 := by
        cases hfail with
        | inl h1 => exact absurd h1 hproto
        | inr h1 => exact h1
      rw [if_pos hexit]
      exact ⟨_, rfl⟩
  obtain ⟨msg, hmsg⟩ := hinst
  have hdown : (DownloadingPluginLoader.load_plugin env name version plugin_module_name).result =
      Except.ok none := by
    unfold DownloadingPluginLoader.load_plugin
    rw [hmsg]
    rfl
  refine ⟨hdown, ?_⟩
  unfold DispatchingPluginLoader.load_plugin
  rw [hdown]
  have hskip := dispatchGo_skip (Except.ok none) [] rfl pre none hpre
  rw [hskip]
  rfl

/-- Witness for C10: an identifier with no protocol prefix, behind one
missing-raising strategy, makes the chain return `None`. -/
theorem c10_failed_install_looks_successful_witness :
    (DownloadingPluginLoader.load_plugin failInstallEnv "unqualified-plugin" none none).result =
      Except.ok none ∧
    (DispatchingPluginLoader.load_plugin
        ([Except.error (PybError.missingPlugin "unqualified-plugin" "not found")] ++
          [(DownloadingPluginLoader.load_plugin failInstallEnv "unqualified-plugin" none
            none).result])).1 = DispatchResult.ok none :=
  c10_failed_install_looks_successful failInstallEnv "unqualified-plugin" none none
    [Except.error (PybError.missingPlugin "unqualified-plugin" "not found")]
    (Or.inl (by decide)) (by decide)
